import Mathlib

/-!
Shallow embedding of the CwMcuSensor sensor-hub driver core
(`src/sensor_hub/libsensors/CwMcuSensor.cpp`): the 24-byte record decoder
(`processEvent`), the dispatch loop (`readEvents`), the control operations
(`setEnable`, `setDelay`, `batch`, `flush`), the light lookup table
(`indexToValue`), the rotation-vector finalizer (`calculate_rv_4th_element`)
and the timestamp-sync handshake (`sync_timestamp`).

Machine integers are modelled as `Nat`/`Int` with explicit wrap-arounds where
the C code relies on them; float arithmetic is idealized over `ℝ`.  Host-clock
reads (`getTimestamp`) and the debug system property are inputs gathered in an
`Env` record; sysfs control-surface writes (an external collaborator per the
spec) are modelled as succeeding and are counted in an `ioWrites` trace field
so that "triggers no I/O" is observable.
-/

namespace CwMcu

/-- Modelled from the spec: the numeric values of the sensor-kind enumeration
live in `CwMcuSensor.h`, which is not among the sources; the spec fixes only
that each kind has a stable, distinct small-integer tag used both as a bit
position in the masks and as an index into the state table, with meta-data,
sync-ack and time-diff-exhausted as protocol-internal pseudo-kinds outside the
real-sensor range.  We assign the real kinds 0..16 and place the pseudo-kinds
at 97..99. -/
def CW_ACCELERATION : Nat := 0

def CW_MAGNETIC : Nat := 1

def CW_GYRO : Nat := 2

def CW_PRESSURE : Nat := 3

def CW_ORIENTATION : Nat := 4

def CW_ROTATIONVECTOR : Nat := 5

def CW_LINEARACCELERATION : Nat := 6

def CW_GRAVITY : Nat := 7

def CW_MAGNETIC_UNCALIBRATED : Nat := 8

def CW_GYROSCOPE_UNCALIBRATED : Nat := 9

def CW_GAME_ROTATION_VECTOR : Nat := 10

def CW_GEOMAGNETIC_ROTATION_VECTOR : Nat := 11

def CW_SIGNIFICANT_MOTION : Nat := 12

def CW_STEP_DETECTOR : Nat := 13

def CW_STEP_COUNTER : Nat := 14

def HTC_WAKE_UP_GESTURE : Nat := 15

def CW_LIGHT : Nat := 16

/-- Modelled from the spec: `numSensors` (the extent of the real-sensor id
range, declared in the missing `CwMcuSensor.h`) is the number of real kinds. -/
def numSensors : Nat := 17

/-- Modelled from the spec: `CW_SENSORS_ID_END` from the missing header; the
end of the real-sensor id range. -/
def CW_SENSORS_ID_END : Nat := 17

def TIME_DIFF_EXHAUSTED : Nat := 97

def CW_SYNC_ACK : Nat := 98

def CW_META_DATA : Nat := 99

/-- `SYNC_ACK_MAGIC` is `0x66` in the source. -/
def SYNC_ACK_MAGIC : Int := 0x66

/-- `EXHAUSTED_MAGIC` is `0x77` in the source. -/
def EXHAUSTED_MAGIC : Int := 0x77

/-- Modelled from the spec: the framework handle values (`ID_A`, `ID_M`, ...)
are declared in the missing `CwMcuSensor.h`; the spec fixes only that the
handle is the integer identifier the framework uses for a kind.  We assign
them 0..16 in the order of the real kinds. -/
def ID_A : Int := 0

def ID_M : Int := 1

def ID_GY : Int := 2

def ID_PS : Int := 3

def ID_O : Int := 4

def ID_RV : Int := 5

def ID_LA : Int := 6

def ID_G : Int := 7

def ID_CW_MAGNETIC_UNCALIBRATED : Int := 8

def ID_CW_GYROSCOPE_UNCALIBRATED : Int := 9

def ID_CW_GAME_ROTATION_VECTOR : Int := 10

def ID_CW_GEOMAGNETIC_ROTATION_VECTOR : Int := 11

def ID_CW_SIGNIFICANT_MOTION : Int := 12

def ID_CW_STEP_DETECTOR : Int := 13

def ID_CW_STEP_COUNTER : Int := 14

def ID_WAKE_UP_GESTURE : Int := 15

def ID_L : Int := 16

/-- POSIX `EINVAL`. -/
def EINVAL : Int := 22

/-- Android `META_DATA_FLUSH_COMPLETE` (framework header, external). -/
def META_DATA_FLUSH_COMPLETE : Int := 1

/-- Android `SENSORS_BATCH_DRY_RUN` flag bit (framework header, external). -/
def SENSORS_BATCH_DRY_RUN : Nat := 1

/-- `find_handle` from the source: maps a sensor-kind tag to the framework
handle, `0xFF` for anything unmatched (note the source has no
`CW_SIGNIFICANT_MOTION` case here). -/
def find_handle (sensors_id : Int) : Int :=
  if sensors_id = (CW_ACCELERATION : Int) then ID_A
  else if sensors_id = (CW_MAGNETIC : Int) then ID_M
  else if sensors_id = (CW_GYRO : Int) then ID_GY
  else if sensors_id = (CW_PRESSURE : Int) then ID_PS
  else if sensors_id = (CW_ORIENTATION : Int) then ID_O
  else if sensors_id = (CW_ROTATIONVECTOR : Int) then ID_RV
  else if sensors_id = (CW_LINEARACCELERATION : Int) then ID_LA
  else if sensors_id = (CW_GRAVITY : Int) then ID_G
  else if sensors_id = (CW_MAGNETIC_UNCALIBRATED : Int) then ID_CW_MAGNETIC_UNCALIBRATED
  else if sensors_id = (CW_GYROSCOPE_UNCALIBRATED : Int) then ID_CW_GYROSCOPE_UNCALIBRATED
  else if sensors_id = (CW_GAME_ROTATION_VECTOR : Int) then ID_CW_GAME_ROTATION_VECTOR
  else if sensors_id = (CW_GEOMAGNETIC_ROTATION_VECTOR : Int) then ID_CW_GEOMAGNETIC_ROTATION_VECTOR
  else if sensors_id = (CW_LIGHT : Int) then ID_L
  else if sensors_id = (CW_STEP_DETECTOR : Int) then ID_CW_STEP_DETECTOR
  else if sensors_id = (CW_STEP_COUNTER : Int) then ID_CW_STEP_COUNTER
  else if sensors_id = (HTC_WAKE_UP_GESTURE : Int) then ID_WAKE_UP_GESTURE
  else 0xFF

/-- `find_sensor` from the source: maps a framework handle to the sensor-kind
tag, `-1` for anything unmatched. -/
def find_sensor (handle : Int) : Int :=
  if handle = ID_A then (CW_ACCELERATION : Int)
  else if handle = ID_M then (CW_MAGNETIC : Int)
  else if handle = ID_GY then (CW_GYRO : Int)
  else if handle = ID_PS then (CW_PRESSURE : Int)
  else if handle = ID_O then (CW_ORIENTATION : Int)
  else if handle = ID_RV then (CW_ROTATIONVECTOR : Int)
  else if handle = ID_LA then (CW_LINEARACCELERATION : Int)
  else if handle = ID_G then (CW_GRAVITY : Int)
  else if handle = ID_CW_MAGNETIC_UNCALIBRATED then (CW_MAGNETIC_UNCALIBRATED : Int)
  else if handle = ID_CW_GYROSCOPE_UNCALIBRATED then (CW_GYROSCOPE_UNCALIBRATED : Int)
  else if handle = ID_CW_GAME_ROTATION_VECTOR then (CW_GAME_ROTATION_VECTOR : Int)
  else if handle = ID_CW_GEOMAGNETIC_ROTATION_VECTOR then (CW_GEOMAGNETIC_ROTATION_VECTOR : Int)
  else if handle = ID_CW_SIGNIFICANT_MOTION then (CW_SIGNIFICANT_MOTION : Int)
  else if handle = ID_CW_STEP_DETECTOR then (CW_STEP_DETECTOR : Int)
  else if handle = ID_CW_STEP_COUNTER then (CW_STEP_COUNTER : Int)
  else if handle = ID_L then (CW_LIGHT : Int)
  else if handle = ID_WAKE_UP_GESTURE then (HTC_WAKE_UP_GESTURE : Int)
  else -1

/-- The C cast `uint32_t(x)` of a signed 32-bit value. -/
def uint32Of (x : Int) : Nat := (x % 4294967296).toNat

/-- The C cast of a (non-negative wraps; negative becomes huge) `int` to
`size_t` (64-bit). -/
def sizeTOf (x : Int) : Nat := (x % 18446744073709551616).toNat

/-- A raw 24-byte record from the IIO character device. -/
def Record : Type := Fin 24 → Fin 256

/-- Two little-endian bytes reinterpreted as an `int16_t` (the `memcpy` into
`int16_t data[3]` / `bias[3]`). -/
def i16 (lo hi : Nat) : Int :=
  if lo + 256 * hi < 32768 then (lo + 256 * hi : Int) else (lo + 256 * hi : Int) - 65536

/-- Four little-endian bytes as an unsigned 32-bit value
(`*(uint32_t *)&data[0]`). -/
def u32 (b0 b1 b2 b3 : Nat) : Nat := b0 + 256 * b1 + 65536 * b2 + 16777216 * b3

/-- Four little-endian bytes reinterpreted as an `int32_t`
(`*(int32_t *)(&data[0])`). -/
def i32 (b0 b1 b2 b3 : Nat) : Int :=
  if u32 b0 b1 b2 b3 < 2147483648 then (u32 b0 b1 b2 b3 : Int)
  else (u32 b0 b1 b2 b3 : Int) - 4294967296

/-- `sensorsid = (int)event[0]`: the tag byte. -/
def recTag (r : Record) : Nat := (r 0).val

/-- `data[0]` after `memcpy(data, &event[1], 6)`. -/
def recData0 (r : Record) : Int := i16 (r 1).val (r 2).val

/-- `data[1]`. -/
def recData1 (r : Record) : Int := i16 (r 3).val (r 4).val

/-- `data[2]`. -/
def recData2 (r : Record) : Int := i16 (r 5).val (r 6).val

/-- `bias[0]` after `memcpy(bias, &event[7], 6)`. -/
def recBias0 (r : Record) : Int := i16 (r 7).val (r 8).val

/-- `bias[1]`. -/
def recBias1 (r : Record) : Int := i16 (r 9).val (r 10).val

/-- `bias[2]`. -/
def recBias2 (r : Record) : Int := i16 (r 11).val (r 12).val

/-- `*(uint32_t *)&data[0]` (bytes 1..4 of the record). -/
def recU32 (r : Record) : Nat := u32 (r 1).val (r 2).val (r 3).val (r 4).val

/-- `*(int32_t *)(&data[0])` (bytes 1..4 of the record). -/
def recI32 (r : Record) : Int := i32 (r 1).val (r 2).val (r 3).val (r 4).val

/-- The 64-bit device timestamp, `memcpy(&time, &event[13], 8)`, little-endian
signed. -/
def recTime (r : Record) : Int :=
  let u : Nat := (r 13).val + 256 * (r 14).val + 65536 * (r 15).val
      + 16777216 * (r 16).val + 4294967296 * (r 17).val
      + 1099511627776 * (r 18).val + 281474976710656 * (r 19).val
      + 72057594037927936 * (r 20).val
  if u < 9223372036854775808 then (u : Int) else (u : Int) - 18446744073709551616

/-- Build a record from a list of byte values (for concrete test inputs);
missing entries read as 0. -/
def recOfList (l : List (Fin 256)) : Record := fun i => l.getD i.val 0

/-- Modelled from the spec: the `CONVERT_10` scale factor lives in the missing
`CwMcuSensor.h`; the spec gives the per-kind scaling 0.1. -/
noncomputable def CONVERT_10 : ℝ := 1 / 10

/-- Modelled from the spec: `CONVERT_100` is the 0.01 scale factor. -/
noncomputable def CONVERT_100 : ℝ := 1 / 100

/-- Modelled from the spec: `CONVERT_10000` is the 0.0001 scale factor. -/
noncomputable def CONVERT_10000 : ℝ := 1 / 10000

/-- The `luxValues` table inside `indexToValue` (`LIGHTSENSOR_LEVEL` = 10
entries). -/
def luxValues : List ℚ := [0, 10, 40, 90, 160, 225, 320, 640, 1280, 2600]

/-- `indexToValue` from the source: clamp the index to `LIGHTSENSOR_LEVEL - 1`
and look up the lux table. -/
def indexToValue (index : Nat) : ℚ :=
  luxValues.getD (if index > 9 then 9 else index) 0

/-- One slot of the `mPendingEvents` table (the claim-relevant parts of a
`sensors_event_t`): the float payload `data[0..5]` (with `light`, `pressure`
aliasing `data[0]` as in the union), the accuracy/status byte
(`orientation.status` / `magnetic.status`), the `u64.step_counter` overlay and
the timestamp. -/
structure PendingEvent where
  timestamp : Int
  status : Int
  data : Fin 6 → ℝ
  stepCounter : Nat

/-- The meta-data (flush-complete) event `mPendingEventsFlush`:
`meta_data.what` and `meta_data.sensor`. -/
structure FlushEvent where
  what : Int
  sensor : Int

/-- Modelled from the spec: the extent of the `mPendingEvents` array is
declared in the missing `CwMcuSensor.h`.  The spec (§4.2) has the decoder
record the device timestamp for every tag, including unknown tags and the
protocol-internal pseudo-kinds, so the table is modelled with one slot per
possible tag byte. -/
def pendingTableSize : Nat := 256

/-- The driver state touched by the decoding/dispatch core and the control
operations.  `ioWrites` counts control-surface (sysfs) writes so that
"triggers no I/O" is an observable fact of the model. -/
structure DriverState where
  mEnabled : Nat
  mPendingMask : Nat
  mPendingEvents : Nat → PendingEvent
  mPendingEventsFlush : FlushEvent
  mFlushSensorEnabled : Int
  l_timestamp : Int
  g_timestamp : Int
  init_trigger_done : Bool
  fill_block_debug : Nat
  ioWrites : Nat

/-- The inputs the driver reads from its environment during one operation: the
host clock (`getTimestamp()`) and the `debug.sensorhal.fill.block` system
property. -/
structure Env where
  now : Int
  fillBlockProp : Nat

/-- Update one slot of the pending-event table. -/
def updSlot (t : Nat → PendingEvent) (i : Nat) (f : PendingEvent → PendingEvent) :
    Nat → PendingEvent :=
  Function.update t i (f (t i))

/-- An output event written into the framework's buffer by `readEvents`:
either a copy of a pending sample (tagged with its kind) or a copy of the
meta-data flush event. -/
inductive OutputEvent where
  | sample (id : Nat) (e : PendingEvent)
  | meta (m : FlushEvent)

/-- `sync_timestamp_locked` from the source: write `TIMESTAMP_SYNC_CODE` to
the `flush` control attribute and record the host time as the candidate
timestamp `l_timestamp`.  The sysfs open/write (external collaborator per the
spec) is modelled as succeeding. -/
def sync_timestamp_locked (env : Env) (s : DriverState) : DriverState × Int :=
  ({ s with ioWrites := s.ioWrites + 1, l_timestamp := env.now }, 0)

/-- `sync_timestamp` from the source: `sync_timestamp_locked` under the global
mutex. -/
def sync_timestamp (env : Env) (s : DriverState) : DriverState × Int :=
  sync_timestamp_locked env s

/-- The value `q0` computed by `calculate_rv_4th_element` from the three
already-scaled quaternion components: `sqrt(1 - q1² - q2² - q3²)` when the
radicand is positive, 0 otherwise. -/
noncomputable def rv4thValue (q1 q2 q3 : ℝ) : ℝ :=
  if 1 - q1 * q1 - q2 * q2 - q3 * q3 > 0 then
    Real.sqrt (1 - q1 * q1 - q2 * q2 - q3 * q3)
  else 0

/-- The `rv4thValue` of the three quaternion components stored in a given
slot (`q1 = data[0]`, `q2 = data[1]`, `q3 = data[2]`). -/
noncomputable def rvSlotValue (s : DriverState) (sensors_id : Nat) : ℝ :=
  rv4thValue ((s.mPendingEvents sensors_id).data 0)
    ((s.mPendingEvents sensors_id).data 1) ((s.mPendingEvents sensors_id).data 2)

/-- `calculate_rv_4th_element` from the source: for the rotation-vector family
store `rv4thValue` of the slot's components into `data[3]`; all other kinds
are untouched. -/
noncomputable def calculate_rv_4th_element (s : DriverState) (sensors_id : Nat) :
    DriverState :=
  if sensors_id = CW_ROTATIONVECTOR ∨ sensors_id = CW_GAME_ROTATION_VECTOR ∨
      sensors_id = CW_GEOMAGNETIC_ROTATION_VECTOR then
    { s with mPendingEvents :=
        updSlot s.mPendingEvents sensors_id fun e =>
          { e with data := Function.update e.data 3 (rvSlotValue s sensors_id) } }
  else
    s

/-- The unconditional `mPendingEvents[sensorsid].timestamp = time;` at the top
of `processEvent` (before the switch): the device timestamp is stored into the
slot named by the tag byte. -/
def stampDeviceTime (s : DriverState) (r : Record) : DriverState :=
  { s with mPendingEvents :=
      updSlot s.mPendingEvents (recTag r) fun e => { e with timestamp := recTime r } }

/-- The `CW_ORIENTATION` branch of the `processEvent` switch. -/
noncomputable def caseOrientation (s : DriverState) (r : Record) : DriverState :=
  { s with
    mPendingMask := s.mPendingMask ||| (1 <<< recTag r),
    mPendingEvents := updSlot s.mPendingEvents (recTag r) fun e =>
      { e with
        status := recBias0 r,
        data := fun k =>
          if k = 0 then (recData0 r : ℝ) * CONVERT_10
          else if k = 1 then (recData1 r : ℝ) * CONVERT_10
          else if k = 2 then (recData2 r : ℝ) * CONVERT_10
          else e.data k } }

/-- The shared `CW_ACCELERATION`/`CW_MAGNETIC`/`CW_GYRO`/
`CW_LINEARACCELERATION`/`CW_GRAVITY` branch (only magnetic updates the status
byte). -/
noncomputable def caseAxes100 (s : DriverState) (r : Record) : DriverState :=
  { s with
    mPendingMask := s.mPendingMask ||| (1 <<< recTag r),
    mPendingEvents := updSlot s.mPendingEvents (recTag r) fun e =>
      { e with
        status := if recTag r = CW_MAGNETIC then recBias0 r else e.status,
        data := fun k =>
          if k = 0 then (recData0 r : ℝ) * CONVERT_100
          else if k = 1 then (recData1 r : ℝ) * CONVERT_100
          else if k = 2 then (recData2 r : ℝ) * CONVERT_100
          else e.data k } }

/-- The `CW_PRESSURE` branch: `data[0]` (the `.pressure` union member) from
the 32-bit reinterpretation, `data[2]` the temperature. -/
noncomputable def casePressure (s : DriverState) (r : Record) : DriverState :=
  { s with
    mPendingMask := s.mPendingMask ||| (1 <<< recTag r),
    mPendingEvents := updSlot s.mPendingEvents (recTag r) fun e =>
      { e with
        data := fun k =>
          if k = 0 then (recI32 r : ℝ) * CONVERT_100
          else if k = 2 then (recData2 r : ℝ) * CONVERT_100
          else e.data k } }

/-- The shared rotation-vector-family branch. -/
noncomputable def caseRvFamily (s : DriverState) (r : Record) : DriverState :=
  { s with
    mPendingMask := s.mPendingMask ||| (1 <<< recTag r),
    mPendingEvents := updSlot s.mPendingEvents (recTag r) fun e =>
      { e with
        data := fun k =>
          if k = 0 then (recData0 r : ℝ) * CONVERT_10000
          else if k = 1 then (recData1 r : ℝ) * CONVERT_10000
          else if k = 2 then (recData2 r : ℝ) * CONVERT_10000
          else e.data k } }

/-- The shared uncalibrated magnetic/gyro branch (vector plus bias sextuple). -/
noncomputable def caseUncalibrated (s : DriverState) (r : Record) : DriverState :=
  { s with
    mPendingMask := s.mPendingMask ||| (1 <<< recTag r),
    mPendingEvents := updSlot s.mPendingEvents (recTag r) fun e =>
      { e with
        data := fun k =>
          if k = 0 then (recData0 r : ℝ) * CONVERT_100
          else if k = 1 then (recData1 r : ℝ) * CONVERT_100
          else if k = 2 then (recData2 r : ℝ) * CONVERT_100
          else if k = 3 then (recBias0 r : ℝ) * CONVERT_100
          else if k = 4 then (recBias1 r : ℝ) * CONVERT_100
          else (recBias2 r : ℝ) * CONVERT_100 } }

/-- The `CW_SIGNIFICANT_MOTION` branch (raw integer casts, no scaling). -/
noncomputable def caseSigMotion (s : DriverState) (r : Record) : DriverState :=
  { s with
    mPendingMask := s.mPendingMask ||| (1 <<< recTag r),
    mPendingEvents := updSlot s.mPendingEvents (recTag r) fun e =>
      { e with
        data := fun k =>
          if k = 0 then (recData0 r : ℝ)
          else if k = 1 then (recData1 r : ℝ)
          else if k = 2 then (recData2 r : ℝ)
          else e.data k } }

/-- The `CW_LIGHT` branch: `.light` (union member `data[0]`) from the lux
lookup. -/
noncomputable def caseLight (s : DriverState) (r : Record) : DriverState :=
  { s with
    mPendingMask := s.mPendingMask ||| (1 <<< recTag r),
    mPendingEvents := updSlot s.mPendingEvents (recTag r) fun e =>
      { e with data :=
          Function.update e.data 0 ((indexToValue (sizeTOf (recData0 r)) : ℝ)) } }

/-- The `CW_STEP_DETECTOR` branch: forward `data[0]` into the step counter's
slot and stamp the step detector's slot with the host clock. -/
noncomputable def caseStepDetector (env : Env) (s : DriverState) (r : Record) :
    DriverState :=
  { s with
    mPendingMask := s.mPendingMask ||| (1 <<< recTag r),
    mPendingEvents :=
      updSlot
        (updSlot s.mPendingEvents CW_STEP_COUNTER fun e =>
          { e with data := Function.update e.data 0 ((recData0 r : ℝ)) })
        CW_STEP_DETECTOR fun e => { e with timestamp := env.now } }

/-- The `CW_STEP_COUNTER` branch: cumulative count from the unsigned 32-bit
reinterpretation. -/
noncomputable def caseStepCounter (s : DriverState) (r : Record) : DriverState :=
  { s with
    mPendingMask := s.mPendingMask ||| (1 <<< recTag r),
    mPendingEvents := updSlot s.mPendingEvents CW_STEP_COUNTER fun e =>
      { e with stepCounter := recU32 r } }

/-- The `HTC_WAKE_UP_GESTURE` branch: `data[0] = 1`. -/
noncomputable def caseWakeGesture (s : DriverState) : DriverState :=
  { s with
    mPendingMask := s.mPendingMask ||| (1 <<< HTC_WAKE_UP_GESTURE),
    mPendingEvents := updSlot s.mPendingEvents HTC_WAKE_UP_GESTURE fun e =>
      { e with data := Function.update e.data 0 (1 : ℝ) } }

/-- The `CW_META_DATA` branch: latch the flush-complete marker with the
handle looked up from `data[0]`. -/
noncomputable def caseMetaData (s : DriverState) (r : Record) : DriverState :=
  { s with mPendingEventsFlush :=
      { what := META_DATA_FLUSH_COMPLETE, sensor := find_handle (recData0 r) } }

/-- The `CW_SYNC_ACK` branch: on the magic byte, commit the candidate
timestamp. -/
noncomputable def caseSyncAck (s : DriverState) (r : Record) : DriverState :=
  if recData0 r = SYNC_ACK_MAGIC then { s with g_timestamp := s.l_timestamp } else s

/-- The `TIME_DIFF_EXHAUSTED` branch: on the magic byte, re-trigger the sync
handshake. -/
noncomputable def caseTimeDiff (env : Env) (s : DriverState) (r : Record) :
    DriverState :=
  if recData0 r = EXHAUSTED_MAGIC then (sync_timestamp env s).1 else s

/-- The switch of `processEvent`, acting on the state after the unconditional
device-timestamp store. -/
noncomputable def processEventSwitch (env : Env) (s : DriverState) (r : Record) :
    DriverState :=
  if recTag r = CW_ORIENTATION then caseOrientation s r
  else if recTag r = CW_ACCELERATION ∨ recTag r = CW_MAGNETIC ∨
      recTag r = CW_GYRO ∨ recTag r = CW_LINEARACCELERATION ∨
      recTag r = CW_GRAVITY then caseAxes100 s r
  else if recTag r = CW_PRESSURE then casePressure s r
  else if recTag r = CW_ROTATIONVECTOR ∨ recTag r = CW_GAME_ROTATION_VECTOR ∨
      recTag r = CW_GEOMAGNETIC_ROTATION_VECTOR then caseRvFamily s r
  else if recTag r = CW_MAGNETIC_UNCALIBRATED ∨
      recTag r = CW_GYROSCOPE_UNCALIBRATED then caseUncalibrated s r
  else if recTag r = CW_SIGNIFICANT_MOTION then caseSigMotion s r
  else if recTag r = CW_LIGHT then caseLight s r
  else if recTag r = CW_STEP_DETECTOR then caseStepDetector env s r
  else if recTag r = CW_STEP_COUNTER then caseStepCounter s r
  else if recTag r = HTC_WAKE_UP_GESTURE then caseWakeGesture s
  else if recTag r = CW_META_DATA then caseMetaData s r
  else if recTag r = CW_SYNC_ACK then caseSyncAck s r
  else if recTag r = TIME_DIFF_EXHAUSTED then caseTimeDiff env s r
  else s

/-- `processEvent` from the source: store the device timestamp into the slot
named by the tag byte, run the kind switch, and return the tag (`sensorsid`)
to the caller. -/
noncomputable def processEvent (env : Env) (s : DriverState) (r : Record) :
    DriverState × Nat :=
  (processEventSwitch env (stampDeviceTime s r) r, recTag r)

/-- `decode` followed by `finalize`: `processEvent` and then
`calculate_rv_4th_element` on the record's own kind, as the dispatch loop
composes them. -/
noncomputable def decodeFinalize (env : Env) (s : DriverState) (r : Record) :
    DriverState :=
  calculate_rv_4th_element (processEvent env s r).1 (recTag r)

/-- `setEnable` from the source.  Order is the source's: refresh
`fill_block_debug` from the debug property, look the handle up, reject with
`-EINVAL` when `uint32_t(what) >= numSensors`, otherwise write the enable
control attribute and update the `mEnabled` bitmask (dropping the IIO buffer
when the mask reaches zero); finally the magnetic-family disable path touches
the calibration files (external I/O, counted).  Sysfs opens are modelled as
succeeding (control surface, external collaborator per the spec). -/
def refreshFillBlock (env : Env) (s : DriverState) : DriverState :=
  { s with fill_block_debug := if env.fillBlockProp = 1 then 1 else 0 }

/-- The enable-attribute write of `setEnable`: one sysfs write plus the
`mEnabled` bitmask update (`mEnabled &= ~(1<<what); mEnabled |= flags<<what`). -/
def enableWrite (s : DriverState) (w flags : Nat) : DriverState :=
  { s with
    ioWrites := s.ioWrites + 1,
    mEnabled := (s.mEnabled &&& (4294967295 - (1 <<< w))) ||| (flags <<< w) }

/-- The IIO buffer-disable write issued by `setEnable` once nothing remains
enabled. -/
def bufferOffIfIdle (s : DriverState) : DriverState :=
  if s.mEnabled = 0 then { s with ioWrites := s.ioWrites + 1 } else s

/-- The compass-calibration save path of `setEnable` (magnetic-family disable
only); external file I/O, counted. -/
def calSaveIfNeeded (what : Int) (flags : Nat) (s : DriverState) : DriverState :=
  if (what = (CW_MAGNETIC : Int) ∨ what = (CW_ORIENTATION : Int) ∨
      what = (CW_ROTATIONVECTOR : Int)) ∧ flags = 0 then
    { s with ioWrites := s.ioWrites + 1 }
  else s

def setEnable (env : Env) (s : DriverState) (handle : Int) (en : Int) :
    Int × DriverState :=
  if numSensors ≤ uint32Of (find_sensor handle) then
    (-EINVAL, refreshFillBlock env s)
  else
    (0, calSaveIfNeeded (find_sensor handle) (if en ≠ 0 then 1 else 0)
      (bufferOffIfIdle
        (enableWrite (refreshFillBlock env s) (find_sensor handle).toNat
          (if en ≠ 0 then 1 else 0))))

/-- `setDelay` from the source: reject unknown kinds with `-EINVAL`, otherwise
write the `delay_ms` control attribute and return 0. -/
def setDelay (s : DriverState) (handle : Int) : Int × DriverState :=
  let what : Int := find_sensor handle
  if numSensors ≤ uint32Of what then
    (-EINVAL, s)
  else
    (0, { s with ioWrites := s.ioWrites + 1 })

/-- `batch` from the source: reject unknown kinds with `-EINVAL`, reject a
positive timeout for light/significant-motion, return 0 on a dry run, and
otherwise reinitialize the IIO buffer when nothing is enabled, issue a
timestamp-sync request, and write the `batch_enable` control attribute. -/
def batch (env : Env) (s : DriverState) (handle : Int) (flags : Nat)
    (timeout : Int) : Int × DriverState :=
  let what : Int := find_sensor handle
  let dryRun : Bool := flags &&& SENSORS_BATCH_DRY_RUN ≠ 0
  if CW_SENSORS_ID_END ≤ uint32Of what then
    (-EINVAL, s)
  else if (what = (CW_LIGHT : Int) ∨ what = (CW_SIGNIFICANT_MOTION : Int)) ∧
      0 < timeout then
    (-EINVAL, s)
  else if dryRun then
    (0, s)
  else
    let s :=
      if s.mEnabled = 0 then
        let s := { s with ioWrites := s.ioWrites + 1 }
        let s :=
          if ¬s.init_trigger_done then
            { s with ioWrites := s.ioWrites + 1, init_trigger_done := true }
          else s
        { s with ioWrites := s.ioWrites + 1 }
      else s
    let s := (sync_timestamp_locked env s).1
    (0, { s with ioWrites := s.ioWrites + 1 })

/-- `flush` from the source: record the requested handle in
`mFlushSensorEnabled` (this happens before the validity check), reject unknown
kinds with `-EINVAL`, otherwise write the kind to the `flush` control
attribute. -/
def flush (s : DriverState) (handle : Int) : Int × DriverState :=
  let what : Int := find_sensor handle
  let s := { s with mFlushSensorEnabled := handle }
  if CW_SENSORS_ID_END ≤ uint32Of what then
    (-EINVAL, s)
  else
    (0, { s with ioWrites := s.ioWrites + 1 })

/-- The `mPendingEvents[id].timestamp = getTimestamp();` of the dispatch loop
(line 845): overwrite the slot's timestamp with the host clock. -/
def stampNow (env : Env) (s : DriverState) (id : Nat) : DriverState :=
  { s with mPendingEvents :=
      updSlot s.mPendingEvents id fun e => { e with timestamp := env.now } }

/-- The state just before the dispatch loop copies `mPendingEvents[id]` into
the output buffer: decode, host-clock stamp, the significant-motion one-shot
disable, and the rotation-vector finalizer. -/
noncomputable def emitState (env : Env) (s : DriverState) (r : Record) :
    DriverState :=
  calculate_rv_4th_element
    (if recTag r = CW_SIGNIFICANT_MOTION then
      (setEnable env (stampNow env (processEvent env s r).1 (recTag r))
        ID_CW_SIGNIFICANT_MOTION 0).2
    else stampNow env (processEvent env s r).1 (recTag r))
    (recTag r)

/-- The `while (count && mInputReader.readEvent(&event))` loop of
`readEvents`: decode the next record; emit the flush event for a meta-data
record; otherwise stamp the slot with the host clock and, only when the kind's
bit is set in `mEnabled`, one-shot-disable significant motion, finalize the
rotation-vector component and emit a copy of the pending slot.  Consumed
records leave the queue whether or not they emit; the unconsumed suffix is
returned. -/
noncomputable def readLoop (env : Env) :
    Nat → DriverState → List Record →
      List OutputEvent × DriverState × List Record
  | _, s, [] => ([], s, [])
  | 0, s, r :: rs => ([], s, r :: rs)
  | Nat.succ c, s, r :: rs =>
    if (processEvent env s r).2 = CW_META_DATA then
      (OutputEvent.meta (processEvent env s r).1.mPendingEventsFlush ::
          (readLoop env c (processEvent env s r).1 rs).1,
        (readLoop env c (processEvent env s r).1 rs).2)
    else
      if (stampNow env (processEvent env s r).1 (processEvent env s r).2).mEnabled
          &&& (1 <<< (processEvent env s r).2) ≠ 0 then
        (OutputEvent.sample (processEvent env s r).2
            ((emitState env s r).mPendingEvents (processEvent env s r).2) ::
          (readLoop env c (emitState env s r) rs).1,
          (readLoop env c (emitState env s r) rs).2)
      else
        readLoop env (Nat.succ c)
          (stampNow env (processEvent env s r).1 (processEvent env s r).2) rs

/-- `readEvents` from the source: `-EINVAL` when fewer than one event is
requested, otherwise drain the buffered records through the dispatch loop.
The buffered byte stream is the `records` list (the fill step's I/O error path
is the external reader's concern). -/
noncomputable def readEvents (env : Env) (s : DriverState) (records : List Record)
    (count : Int) : Except Int (List OutputEvent × DriverState × List Record) :=
  if count < 1 then Except.error (-EINVAL)
  else Except.ok (readLoop env count.toNat s records)

/-- An all-zero pending slot (concrete fixture). -/
noncomputable def zeroSlot : PendingEvent :=
  { timestamp := 0, status := 0, data := fun _ => 0, stepCounter := 0 }

/-- A concrete driver state for witnesses: empty masks, zeroed table. -/
noncomputable def st0 : DriverState :=
  { mEnabled := 0
    mPendingMask := 0
    mPendingEvents := fun _ => zeroSlot
    mPendingEventsFlush := { what := 0, sensor := 0 }
    mFlushSensorEnabled := -1
    l_timestamp := 0
    g_timestamp := 0
    init_trigger_done := true
    fill_block_debug := 0
    ioWrites := 0 }

/-- A concrete environment: host clock 5, debug property off. -/
def env0 : Env := { now := 5, fillBlockProp := 0 }

/-- Concrete significant-motion record (tag byte 12, all payload zero). -/
def recSigmo : Record := recOfList [12]

/-- Concrete step-detector record: tag byte 13, `data[0] = 1`. -/
def recStepDet : Record := recOfList [13, 1]

/-- Concrete meta-data record: tag byte 99, `data[0] = 2` (the gyro id). -/
def recMeta : Record := recOfList [99, 2]

/-- Concrete sync-ack record carrying the magic byte `0x66`. -/
def recSyncAck : Record := recOfList [98, 102]

/-- Concrete sync-ack record with a wrong magic byte. -/
def recSyncBad : Record := recOfList [98, 1]

/-- Concrete accelerometer record: tag byte 0, `data[0] = 7`, device
timestamp 1000 (bytes 13,14 = 232,3). -/
def recAccel1000 : Record :=
  recOfList [0, 7, 0, 0, 0, 0, 0, 0, 0, 0, 0, 0, 0, 232, 3]

/-- Concrete rotation-vector record (tag byte 5, zero payload). -/
def recRV : Record := recOfList [5]

/-- Driver state with only significant motion enabled. -/
noncomputable def stSigmoOn : DriverState :=
  { st0 with mEnabled := 1 <<< CW_SIGNIFICANT_MOTION }

/-- Driver state with only the accelerometer enabled. -/
noncomputable def stAccelOn : DriverState :=
  { st0 with mEnabled := 1 <<< CW_ACCELERATION }

theorem updSlot_apply_ne (t : Nat → PendingEvent) (i : Nat)
    (f : PendingEvent → PendingEvent) (k : Nat) (h : k ≠ i) :
    updSlot t i f k = t k := by
  simp [updSlot, Function.update_apply, h]

theorem updSlot_apply_self (t : Nat → PendingEvent) (i : Nat)
    (f : PendingEvent → PendingEvent) :
    updSlot t i f i = f (t i) := by
  simp [updSlot]

theorem processEventSwitch_shape (env : Env) (s : DriverState) (r : Record) :
    processEventSwitch env s r = caseOrientation s r ∨
    processEventSwitch env s r = caseAxes100 s r ∨
    processEventSwitch env s r = casePressure s r ∨
    processEventSwitch env s r = caseRvFamily s r ∨
    processEventSwitch env s r = caseUncalibrated s r ∨
    processEventSwitch env s r = caseSigMotion s r ∨
    processEventSwitch env s r = caseLight s r ∨
    processEventSwitch env s r = caseStepDetector env s r ∨
    processEventSwitch env s r = caseStepCounter s r ∨
    processEventSwitch env s r = caseWakeGesture s ∨
    processEventSwitch env s r = caseMetaData s r ∨
    processEventSwitch env s r = caseSyncAck s r ∨
    processEventSwitch env s r = caseTimeDiff env s r ∨
    processEventSwitch env s r = s := by
  delta processEventSwitch
  by_cases h1 : recTag r = CW_ORIENTATION
  · rw [if_pos h1]; exact Or.inl rfl
  rw [if_neg h1]
  by_cases h2 : recTag r = CW_ACCELERATION ∨ recTag r = CW_MAGNETIC ∨
      recTag r = CW_GYRO ∨ recTag r = CW_LINEARACCELERATION ∨
      recTag r = CW_GRAVITY
  · rw [if_pos h2]; exact Or.inr (Or.inl rfl)
  rw [if_neg h2]
  by_cases h3 : recTag r = CW_PRESSURE
  · rw [if_pos h3]; exact Or.inr (Or.inr (Or.inl rfl))
  rw [if_neg h3]
  by_cases h4 : recTag r = CW_ROTATIONVECTOR ∨ recTag r = CW_GAME_ROTATION_VECTOR ∨
      recTag r = CW_GEOMAGNETIC_ROTATION_VECTOR
  · rw [if_pos h4]; exact Or.inr (Or.inr (Or.inr (Or.inl rfl)))
  rw [if_neg h4]
  by_cases h5 : recTag r = CW_MAGNETIC_UNCALIBRATED ∨
      recTag r = CW_GYROSCOPE_UNCALIBRATED
  · rw [if_pos h5]; exact Or.inr (Or.inr (Or.inr (Or.inr (Or.inl rfl))))
  rw [if_neg h5]
  by_cases h6 : recTag r = CW_SIGNIFICANT_MOTION
  · rw [if_pos h6]; exact Or.inr (Or.inr (Or.inr (Or.inr (Or.inr (Or.inl rfl)))))
  rw [if_neg h6]
  by_cases h7 : recTag r = CW_LIGHT
  · rw [if_pos h7]
    exact Or.inr (Or.inr (Or.inr (Or.inr (Or.inr (Or.inr (Or.inl rfl))))))
  rw [if_neg h7]
  by_cases h8 : recTag r = CW_STEP_DETECTOR
  · rw [if_pos h8]
    exact Or.inr (Or.inr (Or.inr (Or.inr (Or.inr (Or.inr (Or.inr (Or.inl rfl)))))))
  rw [if_neg h8]
  by_cases h9 : recTag r = CW_STEP_COUNTER
  · rw [if_pos h9]
    exact Or.inr (Or.inr (Or.inr (Or.inr (Or.inr (Or.inr (Or.inr (Or.inr
      (Or.inl rfl))))))))
  rw [if_neg h9]
  by_cases h10 : recTag r = HTC_WAKE_UP_GESTURE
  · rw [if_pos h10]
    exact Or.inr (Or.inr (Or.inr (Or.inr (Or.inr (Or.inr (Or.inr (Or.inr (Or.inr
      (Or.inl rfl)))))))))
  rw [if_neg h10]
  by_cases h11 : recTag r = CW_META_DATA
  · rw [if_pos h11]
    exact Or.inr (Or.inr (Or.inr (Or.inr (Or.inr (Or.inr (Or.inr (Or.inr (Or.inr
      (Or.inr (Or.inl rfl))))))))))
  rw [if_neg h11]
  by_cases h12 : recTag r = CW_SYNC_ACK
  · rw [if_pos h12]
    exact Or.inr (Or.inr (Or.inr (Or.inr (Or.inr (Or.inr (Or.inr (Or.inr (Or.inr
      (Or.inr (Or.inr (Or.inl rfl)))))))))))
  rw [if_neg h12]
  by_cases h13 : recTag r = TIME_DIFF_EXHAUSTED
  · rw [if_pos h13]
    exact Or.inr (Or.inr (Or.inr (Or.inr (Or.inr (Or.inr (Or.inr (Or.inr (Or.inr
      (Or.inr (Or.inr (Or.inr (Or.inl rfl))))))))))))
  rw [if_neg h13]
  exact Or.inr (Or.inr (Or.inr (Or.inr (Or.inr (Or.inr (Or.inr (Or.inr (Or.inr
    (Or.inr (Or.inr (Or.inr (Or.inr rfl))))))))))))

theorem processEvent_fst (env : Env) (s : DriverState) (r : Record) :
    (processEvent env s r).1 = processEventSwitch env (stampDeviceTime s r) r := rfl

theorem processEvent_snd (env : Env) (s : DriverState) (r : Record) :
    (processEvent env s r).2 = recTag r := rfl

theorem processEvent_mEnabled (env : Env) (s : DriverState) (r : Record) :
    (processEvent env s r).1.mEnabled = s.mEnabled := by
  rw [processEvent_fst]
  rcases processEventSwitch_shape env (stampDeviceTime s r) r with
    h|h|h|h|h|h|h|h|h|h|h|h|h|h <;> rw [h] <;>
    first
      | rfl
      | (delta caseSyncAck
         by_cases hm : recData0 r = SYNC_ACK_MAGIC
         · rw [if_pos hm]; rfl
         · rw [if_neg hm]; rfl)
      | (delta caseTimeDiff
         by_cases hm : recData0 r = EXHAUSTED_MAGIC
         · rw [if_pos hm]; rfl
         · rw [if_neg hm]; rfl)

theorem calcRV_mEnabled (s : DriverState) (id : Nat) :
    (calculate_rv_4th_element s id).mEnabled = s.mEnabled := by
  delta calculate_rv_4th_element
  by_cases h : id = CW_ROTATIONVECTOR ∨ id = CW_GAME_ROTATION_VECTOR ∨
      id = CW_GEOMAGNETIC_ROTATION_VECTOR
  · rw [if_pos h]
  · rw [if_neg h]

theorem calcRV_mPendingEvents_ne (s : DriverState) (id j : Nat) (hj : j ≠ id) :
    (calculate_rv_4th_element s id).mPendingEvents j = s.mPendingEvents j := by
  delta calculate_rv_4th_element
  by_cases h : id = CW_ROTATIONVECTOR ∨ id = CW_GAME_ROTATION_VECTOR ∨
      id = CW_GEOMAGNETIC_ROTATION_VECTOR
  · rw [if_pos h]
    dsimp only
    exact updSlot_apply_ne _ _ _ _ hj
  · rw [if_neg h]

theorem calcRV_timestamp (s : DriverState) (id j : Nat) :
    ((calculate_rv_4th_element s id).mPendingEvents j).timestamp =
      ((s.mPendingEvents j).timestamp) := by
  delta calculate_rv_4th_element
  by_cases h : id = CW_ROTATIONVECTOR ∨ id = CW_GAME_ROTATION_VECTOR ∨
      id = CW_GEOMAGNETIC_ROTATION_VECTOR
  · rw [if_pos h]
    dsimp only
    by_cases hj : j = id
    · subst hj; rw [updSlot_apply_self]
    · rw [updSlot_apply_ne _ _ _ _ hj]
  · rw [if_neg h]

theorem refreshFillBlock_mEnabled (env : Env) (s : DriverState) :
    (refreshFillBlock env s).mEnabled = s.mEnabled := rfl

theorem enableWrite_mEnabled (s : DriverState) (w flags : Nat) :
    (enableWrite s w flags).mEnabled =
      (s.mEnabled &&& (4294967295 - (1 <<< w))) ||| (flags <<< w) := rfl

theorem bufferOffIfIdle_mEnabled (s : DriverState) :
    (bufferOffIfIdle s).mEnabled = s.mEnabled := by
  delta bufferOffIfIdle; split_ifs <;> rfl

theorem bufferOffIfIdle_mPendingEvents (s : DriverState) :
    (bufferOffIfIdle s).mPendingEvents = s.mPendingEvents := by
  delta bufferOffIfIdle; split_ifs <;> rfl

theorem calSaveIfNeeded_mEnabled (what : Int) (flags : Nat) (s : DriverState) :
    (calSaveIfNeeded what flags s).mEnabled = s.mEnabled := by
  delta calSaveIfNeeded; split_ifs <;> rfl

theorem calSaveIfNeeded_mPendingEvents (what : Int) (flags : Nat) (s : DriverState) :
    (calSaveIfNeeded what flags s).mPendingEvents = s.mPendingEvents := by
  delta calSaveIfNeeded; split_ifs <;> rfl

theorem setEnable_mPendingEvents (env : Env) (s : DriverState) (h e : Int) :
    (setEnable env s h e).2.mPendingEvents = s.mPendingEvents := by
  delta setEnable
  by_cases h1 : numSensors ≤ uint32Of (find_sensor h)
  · rw [if_pos h1]; rfl
  · rw [if_neg h1]
    show (calSaveIfNeeded _ _ (bufferOffIfIdle (enableWrite _ _ _))).mPendingEvents
      = s.mPendingEvents
    rw [calSaveIfNeeded_mPendingEvents, bufferOffIfIdle_mPendingEvents]
    rfl

theorem setEnable_sigmo_clears (env : Env) (s : DriverState) :
    ((setEnable env s ID_CW_SIGNIFICANT_MOTION 0).2).mEnabled &&&
      (1 <<< CW_SIGNIFICANT_MOTION) = 0 := by
  have hfs : find_sensor ID_CW_SIGNIFICANT_MOTION = 12 := by decide
  delta setEnable
  rw [hfs, if_neg (by decide)]
  show (calSaveIfNeeded _ _ (bufferOffIfIdle (enableWrite _ _ _))).mEnabled &&&
      (1 <<< CW_SIGNIFICANT_MOTION) = 0
  rw [calSaveIfNeeded_mEnabled, bufferOffIfIdle_mEnabled, enableWrite_mEnabled,
    refreshFillBlock_mEnabled]
  rw [show (if (0 : Int) ≠ 0 then (1 : Nat) else 0) = 0 from by decide,
    Nat.zero_shiftLeft, Nat.or_zero, Nat.and_assoc]
  rw [show ((4294967295 - (1 <<< (12 : Int).toNat)) &&&
    (1 <<< CW_SIGNIFICANT_MOTION)) = 0 from by decide, Nat.and_zero]


theorem stampNow_mEnabled (env : Env) (s : DriverState) (id : Nat) :
    (stampNow env s id).mEnabled = s.mEnabled := rfl

theorem stampNow_timestamp_self (env : Env) (s : DriverState) (id : Nat) :
    ((stampNow env s id).mPendingEvents id).timestamp = env.now := by
  delta stampNow
  dsimp only
  rw [updSlot_apply_self]

theorem rl_nil (env : Env) (c : Nat) (s : DriverState) :
    readLoop env c s [] = ([], s, []) := by
  cases c <;> rw [readLoop]

theorem rl_zero (env : Env) (s : DriverState) (r : Record) (rs : List Record) :
    readLoop env 0 s (r :: rs) = ([], s, r :: rs) := by
  rw [readLoop]

theorem rl_cons_meta (env : Env) (c : Nat) (s : DriverState) (r : Record)
    (rs : List Record) (h : recTag r = CW_META_DATA) :
    readLoop env (c + 1) s (r :: rs) =
      (OutputEvent.meta (processEvent env s r).1.mPendingEventsFlush ::
          (readLoop env c (processEvent env s r).1 rs).1,
        (readLoop env c (processEvent env s r).1 rs).2) := by
  conv_lhs => rw [readLoop]
  rw [processEvent_snd, if_pos h]

theorem rl_cons_emit (env : Env) (c : Nat) (s : DriverState) (r : Record)
    (rs : List Record) (h1 : recTag r ≠ CW_META_DATA)
    (h2 : s.mEnabled &&& (1 <<< recTag r) ≠ 0) :
    readLoop env (c + 1) s (r :: rs) =
      (OutputEvent.sample (recTag r)
            ((emitState env s r).mPendingEvents (recTag r)) ::
          (readLoop env c (emitState env s r) rs).1,
        (readLoop env c (emitState env s r) rs).2) := by
  conv_lhs => rw [readLoop]
  rw [processEvent_snd, if_neg h1,
    if_pos (by rw [stampNow_mEnabled, processEvent_mEnabled]; exact h2)]

theorem rl_cons_skip (env : Env) (c : Nat) (s : DriverState) (r : Record)
    (rs : List Record) (h1 : recTag r ≠ CW_META_DATA)
    (h2 : s.mEnabled &&& (1 <<< recTag r) = 0) :
    readLoop env (c + 1) s (r :: rs) =
      readLoop env (c + 1)
        (stampNow env (processEvent env s r).1 (recTag r)) rs := by
  conv_lhs => rw [readLoop]
  rw [processEvent_snd, if_neg h1,
    if_neg (by rw [stampNow_mEnabled, processEvent_mEnabled]; exact not_not_intro h2)]

theorem emitState_sigmo_bit (env : Env) (s : DriverState) (r : Record)
    (h : s.mEnabled &&& (1 <<< CW_SIGNIFICANT_MOTION) = 0) :
    (emitState env s r).mEnabled &&& (1 <<< CW_SIGNIFICANT_MOTION) = 0 := by
  delta emitState
  rw [calcRV_mEnabled]
  split_ifs with h'
  · exact setEnable_sigmo_clears env _
  · rw [stampNow_mEnabled, processEvent_mEnabled]; exact h

theorem readLoop_sigmo_inv (env : Env) : ∀ (rs : List Record) (c : Nat)
    (s : DriverState),
    s.mEnabled &&& (1 <<< CW_SIGNIFICANT_MOTION) = 0 →
    ((readLoop env c s rs).2.1.mEnabled &&& (1 <<< CW_SIGNIFICANT_MOTION) = 0 ∧
     ∀ out ∈ (readLoop env c s rs).1, ∀ e,
       out ≠ OutputEvent.sample CW_SIGNIFICANT_MOTION e) := by
  intro rs
  induction rs with
  | nil =>
    intro c s h
    rw [rl_nil]
    exact ⟨h, fun out hout => absurd hout (List.not_mem_nil out)⟩
  | cons r rs ih =>
    intro c s h
    cases c with
    | zero =>
      rw [rl_zero]
      exact ⟨h, fun out hout => absurd hout (List.not_mem_nil out)⟩
    | succ c =>
      by_cases hm : recTag r = CW_META_DATA
      · rw [rl_cons_meta env c s r rs hm]
        have h1 : (processEvent env s r).1.mEnabled &&&
            (1 <<< CW_SIGNIFICANT_MOTION) = 0 := by
          rw [processEvent_mEnabled]; exact h
        obtain ⟨ha, hb⟩ := ih c (processEvent env s r).1 h1
        refine ⟨ha, ?_⟩
        intro out hout
        rcases List.mem_cons.mp hout with h'|h'
        · subst h'; intro e; simp
        · exact hb out h'
      · by_cases hg : s.mEnabled &&& (1 <<< recTag r) ≠ 0
        · have hsig : recTag r ≠ CW_SIGNIFICANT_MOTION := by
            intro he; rw [he] at hg; exact hg h
          rw [rl_cons_emit env c s r rs hm hg]
          obtain ⟨ha, hb⟩ := ih c (emitState env s r)
            (emitState_sigmo_bit env s r h)
          refine ⟨ha, ?_⟩
          intro out hout
          rcases List.mem_cons.mp hout with h'|h'
          · subst h'; intro e; simp [hsig]
          · exact hb out h'
        · have hg' : s.mEnabled &&& (1 <<< recTag r) = 0 := not_not.mp hg
          rw [rl_cons_skip env c s r rs hm hg']
          apply ih
          rw [stampNow_mEnabled, processEvent_mEnabled]
          exact h


theorem emitState_timestamp_now (env : Env) (s : DriverState) (r : Record) :
    ((emitState env s r).mPendingEvents (recTag r)).timestamp = env.now := by
  delta emitState
  rw [calcRV_timestamp]
  split_ifs with hsig
  · have h := congrFun (setEnable_mPendingEvents env
      (stampNow env (processEvent env s r).1 (recTag r)) ID_CW_SIGNIFICANT_MOTION 0)
      (recTag r)
    rw [h, stampNow_timestamp_self]
  · rw [stampNow_timestamp_self]

/-- C4: when the dispatch loop emits a SignificantMotion output event, the
SignificantMotion bit is cleared from `mEnabled` and stays cleared for the
rest of the loop; and from any state with the bit cleared, no incoming record
can produce a SignificantMotion output event until the framework re-enables
the sensor. -/
theorem sigMotion_oneShot : ∀ (env : Env) (s : DriverState) (c : Nat)
    (r : Record) (rs : List Record),
    recTag r = CW_SIGNIFICANT_MOTION →
    ((s.mEnabled &&& (1 <<< CW_SIGNIFICANT_MOTION) ≠ 0 →
       (readLoop env (c + 1) s (r :: rs)).1.head? =
         some (OutputEvent.sample CW_SIGNIFICANT_MOTION
           ((emitState env s r).mPendingEvents CW_SIGNIFICANT_MOTION)) ∧
       (readLoop env (c + 1) s (r :: rs)).2.1.mEnabled &&&
         (1 <<< CW_SIGNIFICANT_MOTION) = 0) ∧
     (s.mEnabled &&& (1 <<< CW_SIGNIFICANT_MOTION) = 0 →
       ∀ out ∈ (readLoop env (c + 1) s (r :: rs)).1, ∀ e,
         out ≠ OutputEvent.sample CW_SIGNIFICANT_MOTION e)) := by
  intro env s c r rs ht
  constructor
  · intro hen
    have hm : recTag r ≠ CW_META_DATA := by rw [ht]; decide
    have hg : s.mEnabled &&& (1 <<< recTag r) ≠ 0 := by rw [ht]; exact hen
    rw [rl_cons_emit env c s r rs hm hg]
    constructor
    · rw [ht]; rfl
    · have h0 : (emitState env s r).mEnabled &&&
          (1 <<< CW_SIGNIFICANT_MOTION) = 0 := by
        delta emitState
        rw [calcRV_mEnabled, if_pos ht]
        exact setEnable_sigmo_clears env _
      exact (readLoop_sigmo_inv env rs c (emitState env s r) h0).1
  · intro hdis
    exact fun out hout => (readLoop_sigmo_inv env (r :: rs) (c + 1) s hdis).2 out hout

/-- Helper for C7: a meta-data record latches the flush-complete marker with
the handle obtained from `find_handle(data[0])`. -/
theorem processEvent_meta_flush (env : Env) (s : DriverState) (r : Record)
    (h : recTag r = CW_META_DATA) :
    (processEvent env s r).1.mPendingEventsFlush =
      { what := META_DATA_FLUSH_COMPLETE, sensor := find_handle (recData0 r) } := by
  rw [processEvent_fst]
  delta processEventSwitch
  rw [h]
  rw [if_neg (by decide), if_neg (by decide), if_neg (by decide),
    if_neg (by decide), if_neg (by decide), if_neg (by decide),
    if_neg (by decide), if_neg (by decide), if_neg (by decide),
    if_neg (by decide), if_pos rfl]
  rfl

/-- C7: for every incoming meta-data record the dispatch loop emits a
meta-data output event whose sensor is `find_handle(primary[0])`,
unconditionally — the theorem quantifies over every driver state, so neither
the enabled mask nor the dirty mask is consulted. -/
theorem metaData_dispatch : ∀ (env : Env) (s : DriverState) (c : Nat)
    (r : Record) (rs : List Record),
    recTag r = CW_META_DATA →
    (readLoop env (c + 1) s (r :: rs)).1.head? =
      some (OutputEvent.meta
        { what := META_DATA_FLUSH_COMPLETE, sensor := find_handle (recData0 r) }) := by
  intro env s c r rs h
  rw [rl_cons_meta env c s r rs h, processEvent_meta_flush env s r h]
  rfl

theorem readLoop_len (env : Env) : ∀ (rs : List Record) (c : Nat)
    (s : DriverState), (readLoop env c s rs).1.length ≤ c := by
  intro rs
  induction rs with
  | nil => intro c s; rw [rl_nil]; exact Nat.zero_le c
  | cons r rs ih =>
    intro c s
    cases c with
    | zero => rw [rl_zero]; exact Nat.le_refl 0
    | succ c =>
      by_cases hm : recTag r = CW_META_DATA
      · rw [rl_cons_meta env c s r rs hm]
        dsimp only
        rw [List.length_cons]
        exact Nat.succ_le_succ (ih c (processEvent env s r).1)
      · by_cases hg : s.mEnabled &&& (1 <<< recTag r) ≠ 0
        · rw [rl_cons_emit env c s r rs hm hg]
          dsimp only
          rw [List.length_cons]
          exact Nat.succ_le_succ (ih c (emitState env s r))
        · rw [rl_cons_skip env c s r rs hm (not_not.mp hg)]
          exact ih (Nat.succ c) _

theorem readLoop_rest (env : Env) : ∀ (rs : List Record) (c : Nat)
    (s : DriverState), ∃ k, (readLoop env c s rs).2.2 = rs.drop k := by
  intro rs
  induction rs with
  | nil =>
    intro c s
    refine ⟨0, ?_⟩
    rw [rl_nil]
    rfl
  | cons r rs ih =>
    intro c s
    cases c with
    | zero =>
      refine ⟨0, ?_⟩
      rw [rl_zero]
      rfl
    | succ c =>
      by_cases hm : recTag r = CW_META_DATA
      · obtain ⟨k, hk⟩ := ih c (processEvent env s r).1
        refine ⟨k + 1, ?_⟩
        rw [rl_cons_meta env c s r rs hm]
        dsimp only
        rw [hk, List.drop_succ_cons]
      · by_cases hg : s.mEnabled &&& (1 <<< recTag r) ≠ 0
        · obtain ⟨k, hk⟩ := ih c (emitState env s r)
          refine ⟨k + 1, ?_⟩
          rw [rl_cons_emit env c s r rs hm hg]
          dsimp only
          rw [hk, List.drop_succ_cons]
        · obtain ⟨k, hk⟩ := ih (Nat.succ c)
            (stampNow env (processEvent env s r).1 (recTag r))
          refine ⟨k + 1, ?_⟩
          rw [rl_cons_skip env c s r rs hm (not_not.mp hg)]
          rw [hk, List.drop_succ_cons]

/-- C9: `readEvents(data, N)` with N ≥ 1 succeeds and returns at most N
output events, and the records it did not consume remain queued, forming a
suffix (`drop k`) of the buffered record sequence for the next call. -/
theorem maxCount_respected : ∀ (env : Env) (s : DriverState)
    (records : List Record) (count : Int),
    1 ≤ count →
    ∃ out s' rest,
      readEvents env s records count = Except.ok (out, s', rest) ∧
      out.length ≤ count.toNat ∧ ∃ k, rest = records.drop k := by
  intro env s records count h
  refine ⟨(readLoop env count.toNat s records).1,
    (readLoop env count.toNat s records).2.1,
    (readLoop env count.toNat s records).2.2, ?_,
    readLoop_len env records count.toNat s,
    readLoop_rest env records count.toNat s⟩
  delta readEvents
  rw [if_neg (by omega)]

/-- C10 (amended): for every non-meta-data record, decoding first stores the
device timestamp in the pending slot; at dispatch the host-side time
overwrites that slot timestamp and the emitted output event carries the
host-side time — the device timestamp is not retained after dispatch. -/
theorem dispatch_timestamps : ∀ (env : Env) (s : DriverState) (c : Nat)
    (r : Record),
    recTag r ≠ CW_META_DATA →
    (((stampDeviceTime s r).mPendingEvents (recTag r)).timestamp = recTime r ∧
     ((readLoop env (c + 1) s [r]).2.1.mPendingEvents (recTag r)).timestamp =
       env.now ∧
     (s.mEnabled &&& (1 <<< recTag r) ≠ 0 →
       (readLoop env (c + 1) s [r]).1 =
         [OutputEvent.sample (recTag r)
           ((emitState env s r).mPendingEvents (recTag r))] ∧
       ((emitState env s r).mPendingEvents (recTag r)).timestamp = env.now)) := by
  intro env s c r hm
  refine ⟨?_, ?_, ?_⟩
  · delta stampDeviceTime
    dsimp only
    rw [updSlot_apply_self]
  · by_cases hg : s.mEnabled &&& (1 <<< recTag r) ≠ 0
    · rw [rl_cons_emit env c s r [] hm hg]
      dsimp only
      rw [rl_nil]
      exact emitState_timestamp_now env s r
    · rw [rl_cons_skip env c s r [] hm (not_not.mp hg), rl_nil]
      exact stampNow_timestamp_self env (processEvent env s r).1 (recTag r)
  · intro hg
    rw [rl_cons_emit env c s r [] hm hg]
    dsimp only
    rw [rl_nil]
    exact ⟨rfl, emitState_timestamp_now env s r⟩


/-- C6: the light lookup table has exactly the 10 entries
{0,10,40,90,160,225,320,640,1280,2600}; index 0 maps to 0.0 lux, index 9 to
2600.0 lux, every index of 10 or more clamps to 2600.0 lux, and the table is
monotonic. -/
theorem lightLookup_spec :
    luxValues.length = 10 ∧ indexToValue 0 = 0 ∧ indexToValue 9 = 2600 ∧
    (∀ i, 10 ≤ i → indexToValue i = 2600) ∧ luxValues.Chain' (· ≤ ·) := by
  refine ⟨by decide, by decide, by decide, ?_, ?_⟩
  · intro i hi
    have h9 : i > 9 := by omega
    simp [indexToValue, h9]
    decide
  · simp only [luxValues, List.chain'_cons, List.chain'_singleton, and_true]
    norm_num

theorem lightLookup_witness : 10 ≤ 12 ∧ indexToValue 12 = 2600 :=
  ⟨by norm_num, lightLookup_spec.2.2.2.1 12 (by norm_num)⟩

theorem processEvent_syncAck (env : Env) (s : DriverState) (r : Record)
    (h : recTag r = CW_SYNC_ACK) :
    (processEvent env s r).1 = caseSyncAck (stampDeviceTime s r) r := by
  rw [processEvent_fst]
  delta processEventSwitch
  rw [h]
  rw [if_neg (by decide), if_neg (by decide), if_neg (by decide),
    if_neg (by decide), if_neg (by decide), if_neg (by decide),
    if_neg (by decide), if_neg (by decide), if_neg (by decide),
    if_neg (by decide), if_neg (by decide), if_pos rfl]

/-- C8: a SyncAck record whose `data[0]` differs from the magic byte leaves
the synchronizer state (`l_timestamp`, `g_timestamp`) unchanged; with the
correct magic byte the candidate timestamp becomes the authoritative
synchronized timestamp, the candidate itself is untouched, and a repeated ack
changes nothing more (exactly once per sync request). -/
theorem syncAck_spec : ∀ (env : Env) (s : DriverState) (r : Record),
    recTag r = CW_SYNC_ACK →
    ((recData0 r ≠ SYNC_ACK_MAGIC →
       (processEvent env s r).1.l_timestamp = s.l_timestamp ∧
       (processEvent env s r).1.g_timestamp = s.g_timestamp) ∧
     (recData0 r = SYNC_ACK_MAGIC →
       (processEvent env s r).1.g_timestamp = s.l_timestamp ∧
       (processEvent env s r).1.l_timestamp = s.l_timestamp ∧
       (processEvent env (processEvent env s r).1 r).1.g_timestamp =
         (processEvent env s r).1.g_timestamp ∧
       (processEvent env (processEvent env s r).1 r).1.l_timestamp =
         (processEvent env s r).1.l_timestamp)) := by
  intro env s r h
  have hpe : ∀ t : DriverState,
      (processEvent env t r).1 = caseSyncAck (stampDeviceTime t r) r :=
    fun t => processEvent_syncAck env t r h
  constructor
  · intro hm
    rw [hpe s]
    delta caseSyncAck
    rw [if_neg hm]
    exact ⟨rfl, rfl⟩
  · intro hm
    simp only [hpe]
    delta caseSyncAck
    simp only [if_pos hm]
    exact ⟨rfl, rfl, rfl, rfl⟩

theorem syncAck_witness :
    recTag recSyncAck = CW_SYNC_ACK ∧ recData0 recSyncAck = SYNC_ACK_MAGIC ∧
    (processEvent env0 st0 recSyncAck).1.g_timestamp = st0.l_timestamp :=
  ⟨by decide, by decide,
    (((syncAck_spec env0 st0 recSyncAck (by decide)).2) (by decide)).1⟩

/-- C5: for the rotation-vector family with already-scaled components x,y,z,
finalization stores w = sqrt(1 - x² - y² - z²) into `data[3]` whenever
x²+y²+z² ≤ 1, and stores exactly 0 whenever x²+y²+z² > 1 (the square root is
only ever applied to a positive radicand); every non-rotation-vector kind is
left completely unchanged by finalization. -/
theorem rv4th_spec : ∀ (s : DriverState) (id : Nat),
    (id = CW_ROTATIONVECTOR ∨ id = CW_GAME_ROTATION_VECTOR ∨
     id = CW_GEOMAGNETIC_ROTATION_VECTOR) →
    ((((s.mPendingEvents id).data 0) ^ 2 + ((s.mPendingEvents id).data 1) ^ 2 +
        ((s.mPendingEvents id).data 2) ^ 2 ≤ 1 →
      ((calculate_rv_4th_element s id).mPendingEvents id).data 3 =
        Real.sqrt (1 - ((s.mPendingEvents id).data 0) ^ 2 -
          ((s.mPendingEvents id).data 1) ^ 2 -
          ((s.mPendingEvents id).data 2) ^ 2)) ∧
     (1 < (((s.mPendingEvents id).data 0) ^ 2 + ((s.mPendingEvents id).data 1) ^ 2 +
        ((s.mPendingEvents id).data 2) ^ 2) →
      ((calculate_rv_4th_element s id).mPendingEvents id).data 3 = 0) ∧
     (∀ (s' : DriverState) (j : Nat),
       ¬(j = CW_ROTATIONVECTOR ∨ j = CW_GAME_ROTATION_VECTOR ∨
         j = CW_GEOMAGNETIC_ROTATION_VECTOR) →
       calculate_rv_4th_element s' j = s')) := by
  intro s id hid
  set x : ℝ := (s.mPendingEvents id).data 0 with hx
  set y : ℝ := (s.mPendingEvents id).data 1 with hy
  set z : ℝ := (s.mPendingEvents id).data 2 with hz
  refine ⟨?_, ?_, ?_⟩
  · intro hle
    simp only [calculate_rv_4th_element, if_pos hid, updSlot_apply_self,
      Function.update_same, rvSlotValue, rv4thValue, ← hx, ← hy, ← hz]
    by_cases hpos : 1 - x * x - y * y - z * z > 0
    · rw [if_pos hpos]
      congr 1
      ring
    · rw [if_neg hpos]
      have h0 : 1 - x ^ 2 - y ^ 2 - z ^ 2 = 0 := by nlinarith [sq_nonneg x]
      rw [h0, Real.sqrt_zero]
  · intro hgt
    simp only [calculate_rv_4th_element, if_pos hid, updSlot_apply_self,
      Function.update_same, rvSlotValue, rv4thValue, ← hx, ← hy, ← hz]
    rw [if_neg (by nlinarith [sq_nonneg x])]
  · intro s' j hj
    simp [calculate_rv_4th_element, hj]

theorem rv4th_witness :
    ((CW_ROTATIONVECTOR = CW_ROTATIONVECTOR ∨
      CW_ROTATIONVECTOR = CW_GAME_ROTATION_VECTOR ∨
      CW_ROTATIONVECTOR = CW_GEOMAGNETIC_ROTATION_VECTOR) ∧
     ((st0.mPendingEvents CW_ROTATIONVECTOR).data 0) ^ 2 +
       ((st0.mPendingEvents CW_ROTATIONVECTOR).data 1) ^ 2 +
       ((st0.mPendingEvents CW_ROTATIONVECTOR).data 2) ^ 2 ≤ 1) ∧
    ((calculate_rv_4th_element st0 CW_ROTATIONVECTOR).mPendingEvents
        CW_ROTATIONVECTOR).data 3 =
      Real.sqrt (1 - ((st0.mPendingEvents CW_ROTATIONVECTOR).data 0) ^ 2 -
        ((st0.mPendingEvents CW_ROTATIONVECTOR).data 1) ^ 2 -
        ((st0.mPendingEvents CW_ROTATIONVECTOR).data 2) ^ 2) := by
  have h1 : (CW_ROTATIONVECTOR = CW_ROTATIONVECTOR ∨
      CW_ROTATIONVECTOR = CW_GAME_ROTATION_VECTOR ∨
      CW_ROTATIONVECTOR = CW_GEOMAGNETIC_ROTATION_VECTOR) := Or.inl rfl
  have h2 : ((st0.mPendingEvents CW_ROTATIONVECTOR).data 0) ^ 2 +
      ((st0.mPendingEvents CW_ROTATIONVECTOR).data 1) ^ 2 +
      ((st0.mPendingEvents CW_ROTATIONVECTOR).data 2) ^ 2 ≤ 1 := by
    simp [st0, zeroSlot]
  exact ⟨⟨h1, h2⟩, ((rv4th_spec st0 CW_ROTATIONVECTOR h1).1 h2)⟩

/-- C1: for every 24-byte record, `processEvent` returns the tag byte
`event[0]` as the slot id, and both timestamp writes (`processEvent`'s
device-time store and `readEvents`' host-time store) index the pending-sample
table at that tag, which is always a valid index: in an Option-returning view
of the table the out-of-range branch is unreachable for every possible tag
byte. -/
theorem pendingIndex_valid : ∀ (env : Env) (s : DriverState) (r : Record),
    (processEvent env s r).2 = recTag r ∧ recTag r < pendingTableSize ∧
    ∀ (l : List PendingEvent), l.length = pendingTableSize →
      (l.get? (recTag r)).isSome ∧ (l.get? ((processEvent env s r).2)).isSome := by
  intro env s r
  have htag : recTag r < pendingTableSize := by
    have h := (r 0).isLt
    simp [recTag, pendingTableSize]
  refine ⟨rfl, htag, ?_⟩
  intro l hl
  have h : recTag r < l.length := by rw [hl]; exact htag
  constructor
  · rw [List.get?_eq_get h]
    exact rfl
  · show (l.get? (recTag r)).isSome
    rw [List.get?_eq_get h]
    exact rfl

theorem pendingIndex_valid_witness :
    (List.replicate 256 zeroSlot).length = pendingTableSize ∧
    ((List.replicate 256 zeroSlot).get? (recTag recSigmo)).isSome := by
  have hl : (List.replicate 256 zeroSlot).length = pendingTableSize := by
    rw [List.length_replicate, pendingTableSize]
  exact ⟨hl, ((pendingIndex_valid env0 st0 recSigmo).2.2 _ hl).1⟩

/-- C3 counterexample: `flush` on the invalid handle 77 returns `-EINVAL` yet
mutates `mFlushSensorEnabled` from -1 to 77, refuting the claim that an
invalid-handle control operation leaves all driver state unchanged. -/
theorem controlOps_invalid_cx :
    find_sensor 77 = -1 ∧ (flush st0 77).1 = -EINVAL ∧
    st0.mFlushSensorEnabled = -1 ∧ (flush st0 77).2.mFlushSensorEnabled = 77 := by
  refine ⟨by decide, ?_, rfl, ?_⟩
  · simp [flush, find_sensor, ID_A, ID_M, ID_GY, ID_PS, ID_O, ID_RV, ID_LA,
      ID_G, ID_CW_MAGNETIC_UNCALIBRATED, ID_CW_GYROSCOPE_UNCALIBRATED,
      ID_CW_GAME_ROTATION_VECTOR, ID_CW_GEOMAGNETIC_ROTATION_VECTOR,
      ID_CW_SIGNIFICANT_MOTION, ID_CW_STEP_DETECTOR, ID_CW_STEP_COUNTER,
      ID_L, ID_WAKE_UP_GESTURE, uint32Of, CW_SENSORS_ID_END]
  · simp [flush, find_sensor, ID_A, ID_M, ID_GY, ID_PS, ID_O, ID_RV, ID_LA,
      ID_G, ID_CW_MAGNETIC_UNCALIBRATED, ID_CW_GYROSCOPE_UNCALIBRATED,
      ID_CW_GAME_ROTATION_VECTOR, ID_CW_GEOMAGNETIC_ROTATION_VECTOR,
      ID_CW_SIGNIFICANT_MOTION, ID_CW_STEP_DETECTOR, ID_CW_STEP_COUNTER,
      ID_L, ID_WAKE_UP_GESTURE, uint32Of, CW_SENSORS_ID_END]

/-- C3 (amended): every control operation on a handle with no valid sensor
kind returns `-EINVAL`; `batch` and `setDelay` leave the state unchanged,
while `flush` first records the requested handle in `mFlushSensorEnabled` and
`setEnable` first refreshes `fill_block_debug` from the debug property —
nothing else (in particular `mEnabled`) is mutated. -/
theorem controlOps_invalid : ∀ (env : Env) (s : DriverState) (handle en : Int)
    (flags : Nat) (timeout : Int),
    find_sensor handle = -1 →
    ((setEnable env s handle en).1 = -EINVAL ∧
     (setEnable env s handle en).2 =
       { s with fill_block_debug := if env.fillBlockProp = 1 then 1 else 0 } ∧
     (setDelay s handle).1 = -EINVAL ∧ (setDelay s handle).2 = s ∧
     (batch env s handle flags timeout).1 = -EINVAL ∧
     (batch env s handle flags timeout).2 = s ∧
     (flush s handle).1 = -EINVAL ∧
     (flush s handle).2 = { s with mFlushSensorEnabled := handle }) := by
  intro env s handle en flags timeout h
  have hu : uint32Of (find_sensor handle) = 4294967295 := by
    rw [h]; decide
  refine ⟨?_, ?_, ?_, ?_, ?_, ?_, ?_, ?_⟩ <;>
    simp [setEnable, setDelay, batch, flush, refreshFillBlock, hu, numSensors,
      CW_SENSORS_ID_END]

theorem controlOps_invalid_witness :
    find_sensor 77 = -1 ∧ (setDelay st0 77).1 = -EINVAL :=
  ⟨by decide, (controlOps_invalid env0 st0 77 1 0 0 (by decide)).2.2.1⟩


/-- C2 counterexample: decoding a StepDetector record changes the step
counter's pending slot (its `data[0]` goes from 0 to 1), so a record of one
kind does mutate another kind's slot. -/
theorem decodeFinalize_cx :
    recTag recStepDet = CW_STEP_DETECTOR ∧ CW_STEP_COUNTER ≠ CW_STEP_DETECTOR ∧
    ((decodeFinalize env0 st0 recStepDet).mPendingEvents CW_STEP_COUNTER).data 0 ≠
      (st0.mPendingEvents CW_STEP_COUNTER).data 0 := by
  refine ⟨by decide, by decide, ?_⟩
  have hd : recData0 recStepDet = 1 := by decide
  have ht : recTag recStepDet = 13 := by decide
  simp [decodeFinalize, processEvent, processEventSwitch, stampDeviceTime,
    calculate_rv_4th_element, rvSlotValue, rv4thValue, updSlot,
    Function.update_apply, ht, hd, st0, zeroSlot,
    caseOrientation, caseAxes100, casePressure, caseRvFamily, caseUncalibrated,
    caseSigMotion, caseLight, caseStepDetector, caseStepCounter,
    caseWakeGesture, caseMetaData, caseSyncAck, caseTimeDiff,
    sync_timestamp, sync_timestamp_locked,
    CW_SYNC_ACK, CW_ORIENTATION, CW_ACCELERATION, CW_MAGNETIC, CW_GYRO,
    CW_LINEARACCELERATION, CW_GRAVITY, CW_PRESSURE, CW_ROTATIONVECTOR,
    CW_GAME_ROTATION_VECTOR, CW_GEOMAGNETIC_ROTATION_VECTOR,
    CW_MAGNETIC_UNCALIBRATED, CW_GYROSCOPE_UNCALIBRATED,
    CW_SIGNIFICANT_MOTION, CW_LIGHT, CW_STEP_DETECTOR, CW_STEP_COUNTER,
    HTC_WAKE_UP_GESTURE, CW_META_DATA, TIME_DIFF_EXHAUSTED]

/-- C2 (amended): for every valid sensor kind other than StepDetector,
decode-then-finalize is deterministic (independent of the host clock and the
debug property) and mutates nothing outside the record's own slot and its
dirty-mask bit — no I/O, no sync state, no flush marker, no enable mask; a
StepDetector record additionally touches only the StepCounter slot. -/
theorem decodeFinalize_local : ∀ (env env' : Env) (s : DriverState) (r : Record),
    recTag r < numSensors →
    ((recTag r ≠ CW_STEP_DETECTOR →
       (∀ k, k ≠ recTag r →
         (decodeFinalize env s r).mPendingEvents k = s.mPendingEvents k) ∧
       decodeFinalize env s r = decodeFinalize env' s r) ∧
     (recTag r = CW_STEP_DETECTOR →
       ∀ k, k ≠ recTag r → k ≠ CW_STEP_COUNTER →
         (decodeFinalize env s r).mPendingEvents k = s.mPendingEvents k) ∧
     (decodeFinalize env s r).ioWrites = s.ioWrites ∧
     (decodeFinalize env s r).mEnabled = s.mEnabled ∧
     (decodeFinalize env s r).l_timestamp = s.l_timestamp ∧
     (decodeFinalize env s r).g_timestamp = s.g_timestamp ∧
     (decodeFinalize env s r).mPendingEventsFlush = s.mPendingEventsFlush ∧
     (decodeFinalize env s r).mFlushSensorEnabled = s.mFlushSensorEnabled ∧
     (decodeFinalize env s r).fill_block_debug = s.fill_block_debug ∧
     (decodeFinalize env s r).mPendingMask = s.mPendingMask ||| (1 <<< recTag r)) := by
  intro env env' s r h
  have h17 : recTag r < 17 := h
  have hc : recTag r = 0 ∨ recTag r = 1 ∨ recTag r = 2 ∨ recTag r = 3 ∨
      recTag r = 4 ∨ recTag r = 5 ∨ recTag r = 6 ∨ recTag r = 7 ∨
      recTag r = 8 ∨ recTag r = 9 ∨ recTag r = 10 ∨ recTag r = 11 ∨
      recTag r = 12 ∨ recTag r = 13 ∨ recTag r = 14 ∨ recTag r = 15 ∨
      recTag r = 16 := by omega
  refine ⟨?_, ?_, ?_, ?_, ?_, ?_, ?_, ?_, ?_, ?_⟩
  · intro hne
    refine ⟨?_, ?_⟩
    · intro k hk
      rcases hc with hcase|hcase|hcase|hcase|hcase|hcase|hcase|hcase|hcase|
        hcase|hcase|hcase|hcase|hcase|hcase|hcase|hcase <;>
        first
          | exact absurd hcase hne
          | (rw [hcase] at hk
             simp [decodeFinalize, processEvent, processEventSwitch,
               stampDeviceTime, calculate_rv_4th_element, rvSlotValue,
               rv4thValue, updSlot, Function.update_apply, hcase, hk,
               caseOrientation, caseAxes100, casePressure, caseRvFamily,
               caseUncalibrated, caseSigMotion, caseLight, caseStepDetector,
               caseStepCounter, caseWakeGesture, caseMetaData, caseSyncAck,
               caseTimeDiff, sync_timestamp, sync_timestamp_locked,
               CW_SYNC_ACK, CW_ORIENTATION, CW_ACCELERATION, CW_MAGNETIC,
               CW_GYRO, CW_LINEARACCELERATION, CW_GRAVITY, CW_PRESSURE,
               CW_ROTATIONVECTOR, CW_GAME_ROTATION_VECTOR,
               CW_GEOMAGNETIC_ROTATION_VECTOR, CW_MAGNETIC_UNCALIBRATED,
               CW_GYROSCOPE_UNCALIBRATED, CW_SIGNIFICANT_MOTION, CW_LIGHT,
               CW_STEP_DETECTOR, CW_STEP_COUNTER, HTC_WAKE_UP_GESTURE,
               CW_META_DATA, TIME_DIFF_EXHAUSTED])
    · rcases hc with hcase|hcase|hcase|hcase|hcase|hcase|hcase|hcase|hcase|
        hcase|hcase|hcase|hcase|hcase|hcase|hcase|hcase <;>
        first
          | exact absurd hcase hne
          | simp [decodeFinalize, processEvent, processEventSwitch,
              stampDeviceTime, calculate_rv_4th_element, rvSlotValue,
              rv4thValue, updSlot, Function.update_apply, hcase,
              caseOrientation, caseAxes100, casePressure, caseRvFamily,
              caseUncalibrated, caseSigMotion, caseLight, caseStepDetector,
              caseStepCounter, caseWakeGesture, caseMetaData, caseSyncAck,
              caseTimeDiff, sync_timestamp, sync_timestamp_locked,
              CW_SYNC_ACK, CW_ORIENTATION, CW_ACCELERATION, CW_MAGNETIC,
              CW_GYRO, CW_LINEARACCELERATION, CW_GRAVITY, CW_PRESSURE,
              CW_ROTATIONVECTOR, CW_GAME_ROTATION_VECTOR,
              CW_GEOMAGNETIC_ROTATION_VECTOR, CW_MAGNETIC_UNCALIBRATED,
              CW_GYROSCOPE_UNCALIBRATED, CW_SIGNIFICANT_MOTION, CW_LIGHT,
              CW_STEP_DETECTOR, CW_STEP_COUNTER, HTC_WAKE_UP_GESTURE,
              CW_META_DATA, TIME_DIFF_EXHAUSTED]
  · intro hsd k hk hk2
    rw [hsd] at hk
    have hk13 : k ≠ 13 := hk
    have hk14 : k ≠ 14 := hk2
    simp [decodeFinalize, processEvent, processEventSwitch,
      stampDeviceTime, calculate_rv_4th_element, rvSlotValue, rv4thValue,
      updSlot, Function.update_apply, hsd, hk13, hk14,
      caseOrientation, caseAxes100, casePressure, caseRvFamily,
      caseUncalibrated, caseSigMotion, caseLight, caseStepDetector,
      caseStepCounter, caseWakeGesture, caseMetaData, caseSyncAck,
      caseTimeDiff, sync_timestamp, sync_timestamp_locked,
      CW_SYNC_ACK, CW_ORIENTATION, CW_ACCELERATION, CW_MAGNETIC,
      CW_GYRO, CW_LINEARACCELERATION, CW_GRAVITY, CW_PRESSURE,
      CW_ROTATIONVECTOR, CW_GAME_ROTATION_VECTOR,
      CW_GEOMAGNETIC_ROTATION_VECTOR, CW_MAGNETIC_UNCALIBRATED,
      CW_GYROSCOPE_UNCALIBRATED, CW_SIGNIFICANT_MOTION, CW_LIGHT,
      CW_STEP_DETECTOR, CW_STEP_COUNTER, HTC_WAKE_UP_GESTURE,
      CW_META_DATA, TIME_DIFF_EXHAUSTED]
  all_goals
    rcases hc with hcase|hcase|hcase|hcase|hcase|hcase|hcase|hcase|hcase|
      hcase|hcase|hcase|hcase|hcase|hcase|hcase|hcase <;>
      simp [decodeFinalize, processEvent, processEventSwitch,
        stampDeviceTime, calculate_rv_4th_element, rvSlotValue, rv4thValue,
        updSlot, Function.update_apply, hcase,
        caseOrientation, caseAxes100, casePressure, caseRvFamily,
        caseUncalibrated, caseSigMotion, caseLight, caseStepDetector,
        caseStepCounter, caseWakeGesture, caseMetaData, caseSyncAck,
        caseTimeDiff, sync_timestamp, sync_timestamp_locked,
        CW_SYNC_ACK, CW_ORIENTATION, CW_ACCELERATION, CW_MAGNETIC,
        CW_GYRO, CW_LINEARACCELERATION, CW_GRAVITY, CW_PRESSURE,
        CW_ROTATIONVECTOR, CW_GAME_ROTATION_VECTOR,
        CW_GEOMAGNETIC_ROTATION_VECTOR, CW_MAGNETIC_UNCALIBRATED,
        CW_GYROSCOPE_UNCALIBRATED, CW_SIGNIFICANT_MOTION, CW_LIGHT,
        CW_STEP_DETECTOR, CW_STEP_COUNTER, HTC_WAKE_UP_GESTURE,
        CW_META_DATA, TIME_DIFF_EXHAUSTED]

theorem decodeFinalize_local_witness :
    (recTag recAccel1000 < numSensors ∧ recTag recAccel1000 ≠ CW_STEP_DETECTOR ∧
     CW_GYRO ≠ recTag recAccel1000) ∧
    (decodeFinalize env0 st0 recAccel1000).mPendingEvents CW_GYRO =
      st0.mPendingEvents CW_GYRO := by
  have h1 : recTag recAccel1000 < numSensors := by decide
  have h2 : recTag recAccel1000 ≠ CW_STEP_DETECTOR := by decide
  have h3 : CW_GYRO ≠ recTag recAccel1000 := by decide
  exact ⟨⟨h1, h2, h3⟩,
    ((decodeFinalize_local env0 env0 st0 recAccel1000 h1).1 h2).1 CW_GYRO h3⟩

theorem sigMotion_oneShot_witness :
    (recTag recSigmo = CW_SIGNIFICANT_MOTION ∧
     stSigmoOn.mEnabled &&& (1 <<< CW_SIGNIFICANT_MOTION) ≠ 0) ∧
    (readLoop env0 (3 + 1) stSigmoOn [recSigmo]).2.1.mEnabled &&&
      (1 <<< CW_SIGNIFICANT_MOTION) = 0 := by
  have h1 : recTag recSigmo = CW_SIGNIFICANT_MOTION := by decide
  have h2 : stSigmoOn.mEnabled &&& (1 <<< CW_SIGNIFICANT_MOTION) ≠ 0 := by
    have he : stSigmoOn.mEnabled = 1 <<< CW_SIGNIFICANT_MOTION := rfl
    rw [he]; decide
  exact ⟨⟨h1, h2⟩, ((sigMotion_oneShot env0 stSigmoOn 3 recSigmo [] h1).1 h2).2⟩

theorem metaData_dispatch_witness :
    recTag recMeta = CW_META_DATA ∧
    (readLoop env0 (2 + 1) st0 [recMeta]).1.head? =
      some (OutputEvent.meta
        { what := META_DATA_FLUSH_COMPLETE, sensor := find_handle (recData0 recMeta) }) :=
  ⟨by decide, metaData_dispatch env0 st0 2 recMeta [] (by decide)⟩

theorem maxCount_respected_witness :
    (1 : Int) ≤ 3 ∧
    ∃ out s' rest, readEvents env0 st0 [recSigmo] 3 = Except.ok (out, s', rest) ∧
      out.length ≤ (3 : Int).toNat ∧ ∃ k, rest = [recSigmo].drop k :=
  ⟨by norm_num, maxCount_respected env0 st0 [recSigmo] 3 (by norm_num)⟩

/-- C10 counterexample: an accelerometer record with device timestamp 1000,
dispatched with host clock 5, leaves 5 (the host time) in the pending slot —
the device timestamp is not retained in the state table after dispatch. -/
theorem dispatchTs_cx :
    recTime recAccel1000 = 1000 ∧ env0.now = 5 ∧
    ((readLoop env0 1 stAccelOn [recAccel1000]).2.1.mPendingEvents
        (recTag recAccel1000)).timestamp = env0.now ∧
    ((readLoop env0 1 stAccelOn [recAccel1000]).2.1.mPendingEvents
        (recTag recAccel1000)).timestamp ≠ recTime recAccel1000 := by
  have h1 : recTime recAccel1000 = 1000 := by decide
  have hm : recTag recAccel1000 ≠ CW_META_DATA := by decide
  have hg : stAccelOn.mEnabled &&& (1 <<< recTag recAccel1000) ≠ 0 := by
    have he : stAccelOn.mEnabled = 1 <<< CW_ACCELERATION := rfl
    have ht : recTag recAccel1000 = CW_ACCELERATION := by decide
    rw [he, ht]; decide
  have hts : ((readLoop env0 (0 + 1) stAccelOn
      [recAccel1000]).2.1.mPendingEvents (recTag recAccel1000)).timestamp =
      env0.now := by
    rw [rl_cons_emit env0 0 stAccelOn recAccel1000 [] hm hg]
    dsimp only
    rw [rl_nil]
    exact emitState_timestamp_now env0 stAccelOn recAccel1000
  refine ⟨h1, rfl, hts, ?_⟩
  rw [hts, h1]
  decide

theorem dispatchTs_witness :
    recTag recAccel1000 ≠ CW_META_DATA ∧
    ((stampDeviceTime stAccelOn recAccel1000).mPendingEvents
        (recTag recAccel1000)).timestamp = recTime recAccel1000 :=
  ⟨by decide, (dispatch_timestamps env0 stAccelOn 0 recAccel1000 (by decide)).1⟩

end CwMcu
